import Mathlib

/-!
# Verification of the BYTE-Health-App core against its specification

Shallow embedding of the core of the repository (a Flask barcode-scan
backend `app.py` and a Streamlit dashboard `streamlit_app.py`) in Lean 4.

Numbers are modelled as rationals (`ℚ`).  A JSON numeric value that may be
`null` is `Option ℚ` (`none` = JSON `null`).  A dictionary slot whose key
may be absent is an outer `Option` (`none` = key absent).  Python string
dictionaries are modelled as structures with `Option`-typed fields.
-/

/-- A JSON value that is either `null` or a number. -/
abbrev JNum := Option ℚ

/-- Python truthiness of a value that is `None` or a number:
`None` and `0` are falsy, every other number is truthy. -/
def truthy : Option ℚ → Bool
  | none => false
  | some q => q ≠ 0

/-- Python `a or b` restricted to values that are `None` or numbers:
returns `a` when `a` is truthy, otherwise `b`. -/
def pyOr (a b : Option ℚ) : Option ℚ :=
  if truthy a then a else b

/-! ## Profile/Goal calculator (`streamlit_app.py`) -/

/-- Python `str.lower()` (the inputs used here are ASCII, where
`Char.toLower` coincides with Python's lowering). -/
def strLower (s : String) : String :=
  ⟨s.data.map Char.toLower⟩

/-- `calculate_bmr` from `streamlit_app.py` (Mifflin-St Jeor):
`10*weight + 6.25*height - 5*age + 5` for male, `- 161` otherwise. -/
def calculate_bmr (weight height age : ℚ) (gender : String) : ℚ :=
  if strLower gender = "male" then
    (10 * weight) + (625/100 * height) - (5 * age) + 5
  else
    (10 * weight) + (625/100 * height) - (5 * age) - 161

/-- The fixed `activity_multipliers` table of `calculate_tdee`
(`streamlit_app.py`), as a partial lookup: `none` for a key not in the
table. -/
def activity_multipliers (level : String) : Option ℚ :=
  if level = "Sedentary (little or no exercise)" then some (12/10)
  else if level = "Lightly active (light exercise/sports 1-3 days/week)" then some (1375/1000)
  else if level = "Moderately active (moderate exercise/sports 3-5 days/week)" then some (155/100)
  else if level = "Very active (hard exercise/sports 6-7 days a week)" then some (1725/1000)
  else if level = "Extra active (very hard exercise/sports & physical job)" then some (19/10)
  else none

/-- `calculate_tdee` from `streamlit_app.py`:
`bmr * activity_multipliers.get(activity_level, 1.2)`. -/
def calculate_tdee (bmr : ℚ) (activity_level : String) : ℚ :=
  bmr * (activity_multipliers activity_level).getD (12/10)

/-! ## Nutrition lookup client (`get_nutrition_info` in `app.py`) -/

/-- The `nutriments` map of an OpenFoodFacts product, restricted to the
keys `get_nutrition_info` reads.  Each field is `none` when the key is
absent, `some q` when it holds the number `q`. -/
structure Nutriments where
  energy_kcal_serving : Option ℚ := none
  energy_kcal : Option ℚ := none
  energy_kcal_100g : Option ℚ := none
  proteins_serving : Option ℚ := none
  proteins : Option ℚ := none
  proteins_100g : Option ℚ := none
  fat_serving : Option ℚ := none
  fat : Option ℚ := none
  fat_100g : Option ℚ := none
  carbohydrates_serving : Option ℚ := none
  carbohydrates : Option ℚ := none
  carbohydrates_100g : Option ℚ := none
  fiber_serving : Option ℚ := none
  fiber : Option ℚ := none
  fiber_100g : Option ℚ := none
  sugars_serving : Option ℚ := none
  sugars : Option ℚ := none
  sugars_100g : Option ℚ := none
  salt_serving : Option ℚ := none
  salt : Option ℚ := none
  salt_100g : Option ℚ := none
  deriving DecidableEq

/-- The `product` object of an OpenFoodFacts response, restricted to the
keys `get_nutrition_info` reads. -/
structure Product where
  product_name : Option String := none
  brands : Option String := none
  quantity : Option String := none
  serving_size : Option String := none
  nutriments : Nutriments := {}
  image_url : Option String := none
  nutrition_grades : Option String := none
  deriving DecidableEq

/-- The parsed JSON body of an OpenFoodFacts response:
`status` is the product-found flag (`data.get("status")`), `product` the
optional product object (`data.get("product", {})` defaults it). -/
structure OFFBody where
  status : Option Int := none
  product : Option Product := none
  deriving DecidableEq

/-- Outcome of the HTTP GET performed by `get_nutrition_info`: either a
transport/parse exception with a message, or a response with a status
code and a parsed body. -/
inductive HttpOutcome where
  | exn (msg : String)
  | resp (statusCode : Nat) (body : OFFBody)
  deriving DecidableEq

/-- The normalized nutrition dictionary built by `get_nutrition_info` on
success.  Every numeric key is present in the Python dict, so a numeric
field here is `JNum` (`none` = the dict holds `None`). -/
structure NutritionRecord where
  product_name : String
  brand : String
  quantity : Option String
  serving_size : Option String
  calories : JNum
  protein : JNum
  fat : JNum
  carbs : JNum
  fiber : JNum
  sugar : JNum
  salt : JNum
  calories_per_100g : JNum
  protein_per_100g : JNum
  fat_per_100g : JNum
  carbs_per_100g : JNum
  image_url : Option String
  nutrition_grade : Option String
  deriving DecidableEq

/-- Result of `get_nutrition_info`: the nutrition dict, or a dict holding
only an `error` message. -/
inductive LookupResult where
  | ok (r : NutritionRecord)
  | error (msg : String)
  deriving DecidableEq

/-- `get_nutrition_info` from `app.py`: on HTTP 200 with found-flag `1`,
builds the normalized record, resolving each numeric field with the
Python `or`-chain serving `or` base `or` 100g; otherwise returns the
corresponding error dict.  Any exception is caught and converted. -/
def get_nutrition_info (o : HttpOutcome) : LookupResult :=
  match o with
  | .exn msg => .error ("API request failed: " ++ msg)
  | .resp statusCode body =>
    if statusCode = 200 then
      if body.status = some 1 then
        let p := body.product.getD {}
        let n := p.nutriments
        .ok {
          product_name := p.product_name.getD "Unknown Product"
          brand := p.brands.getD "Unknown Brand"
          quantity := p.quantity
          serving_size := p.serving_size
          calories := pyOr (pyOr n.energy_kcal_serving n.energy_kcal) n.energy_kcal_100g
          protein := pyOr (pyOr n.proteins_serving n.proteins) n.proteins_100g
          fat := pyOr (pyOr n.fat_serving n.fat) n.fat_100g
          carbs := pyOr (pyOr n.carbohydrates_serving n.carbohydrates) n.carbohydrates_100g
          fiber := pyOr (pyOr n.fiber_serving n.fiber) n.fiber_100g
          sugar := pyOr (pyOr n.sugars_serving n.sugars) n.sugars_100g
          salt := pyOr (pyOr n.salt_serving n.salt) n.salt_100g
          calories_per_100g := n.energy_kcal_100g
          protein_per_100g := n.proteins_100g
          fat_per_100g := n.fat_100g
          carbs_per_100g := n.carbohydrates_100g
          image_url := p.image_url
          nutrition_grade := p.nutrition_grades }
      else
        .error "Product not found in database"
    else
      .error "Failed to fetch product data"

/-! ## Scanned-food store (`save_scanned_food` in `app.py`,
`load_scanned_foods` in `streamlit_app.py`) -/

/-- One persisted row of `scanned_foods.json`.  The Python dict always
holds all these keys; a numeric value may be JSON `null` (`none`). -/
structure FoodEntry where
  name : String
  brand : String
  calories : JNum
  protein : JNum
  carbs : JNum
  fat : JNum
  fiber : JNum
  sugar : JNum
  timestamp : String
  deriving DecidableEq

/-- The `nutrition_info` dict as `save_scanned_food` sees it: each key
independently absent (outer `none`), present with `null` (`some none`),
or present with a number (`some (some q)`).  String keys are modelled as
absent-or-string. -/
structure NutritionDict where
  product_name : Option String := none
  brand : Option String := none
  calories : Option JNum := none
  protein : Option JNum := none
  carbs : Option JNum := none
  fat : Option JNum := none
  fiber : Option JNum := none
  sugar : Option JNum := none
  deriving DecidableEq

/-- Python `dict.get(key, 0)` on a numeric slot: the default `0` only
applies when the key is absent; a key present with `null` yields `null`. -/
def dictGetNum (slot : Option JNum) (default : ℚ) : JNum :=
  match slot with
  | none => some default
  | some v => v

/-- The `food_entry` dict built inside `save_scanned_food` (`app.py`,
lines 137-147), with `now` standing for `datetime.now().isoformat()`. -/
def mkFoodEntry (d : NutritionDict) (now : String) : FoodEntry :=
  { name := d.product_name.getD "Unknown Product"
    brand := d.brand.getD ""
    calories := dictGetNum d.calories 0
    protein := dictGetNum d.protein 0
    carbs := dictGetNum d.carbs 0
    fat := dictGetNum d.fat 0
    fiber := dictGetNum d.fiber 0
    sugar := dictGetNum d.sugar 0
    timestamp := now }

/-- State of the backing file `scanned_foods.json`: absent, holding
unparseable contents (also an empty or truncated file), or holding the
JSON object `{"foods": [...]}`. -/
inductive FileContent where
  | absent
  | corrupt
  | data (foods : List FoodEntry)
  deriving DecidableEq

/-- `load_scanned_foods` from `streamlit_app.py`: returns the `foods`
list; an absent file or any exception (e.g. a parse failure) yields `[]`. -/
def load_scanned_foods (file : FileContent) : List FoodEntry :=
  match file with
  | .absent => []
  | .corrupt => []
  | .data foods => foods

/-- `save_scanned_food` from `app.py`: loads the current contents
(treating an absent file as `{'foods': []}`), appends the new entry and
rewrites the file.  Every exception is caught and swallowed: a parse
failure of existing contents aborts before writing, and `writeFails`
models the file-open raising, leaving the file unchanged. -/
def save_scanned_food (writeFails : Bool) (file : FileContent)
    (d : NutritionDict) (now : String) : FileContent :=
  match file with
  | .corrupt => .corrupt
  | .absent =>
    if writeFails then .absent else .data [mkFoodEntry d now]
  | .data foods =>
    if writeFails then .data foods else .data (foods ++ [mkFoodEntry d now])

/-- The sequence of file states observable by a concurrent reader during
`save_scanned_food`'s write (`app.py` lines 152-153): `open(file, 'w')`
truncates the file to empty — unparseable JSON — before `json.dump`
writes the full contents.  On a parse failure of the existing contents no
write happens. -/
def appendObservableStates (file : FileContent) (d : NutritionDict)
    (now : String) : List FileContent :=
  match file with
  | .corrupt => [.corrupt]
  | .absent => [.corrupt, .data [mkFoodEntry d now]]
  | .data foods => [.corrupt, .data (foods ++ [mkFoodEntry d now])]

/-! ## Barcode scan handler (`scan_barcode` in `app.py`) -/

/-- One decoded barcode as reported by `pyzbar.decode`: its UTF-8 payload
and its symbology type. -/
structure Barcode where
  data : String
  symType : String
  deriving DecidableEq

/-- The disjoint shapes of an incoming `/scan-barcode` request, in the
order the handler tests them: no JSON body, JSON without an `image` key,
a payload whose decoding raises (bad data-URI / base64 / image bytes),
or a decodable image on which the decoder reports the given barcodes. -/
inductive ScanRequest where
  | noJson
  | noImageKey
  | badPayload (msg : String)
  | image (barcodes : List Barcode)
  deriving DecidableEq

/-- The JSON response of `/scan-barcode`. -/
inductive ScanResponse where
  | error (message : String)
  | no_barcode (message : String)
  | success (barcode : String) (barcode_type : String) (nutrition : LookupResult)
  deriving DecidableEq

/-- Result of running the scan handler: the HTTP response, the resulting
store file, and the number of times the handler invoked the store append
(`save_scanned_food`). -/
structure ScanOutcome where
  response : ScanResponse
  file : FileContent
  saveCalls : Nat
  deriving DecidableEq

/-- The `nutrition_info` dict returned by `get_nutrition_info` on
success, as the dict `save_scanned_food` receives: every key present,
numeric values possibly `null`. -/
def recordToDict (r : NutritionRecord) : NutritionDict :=
  { product_name := some r.product_name
    brand := some r.brand
    calories := some r.calories
    protein := some r.protein
    carbs := some r.carbs
    fat := some r.fat
    fiber := some r.fiber
    sugar := some r.sugar }

/-- `scan_barcode` from `app.py`.  `net` gives the HTTP outcome of the
OpenFoodFacts GET for a barcode string; `writeFails` and `file` are the
store environment; `now` the write timestamp.  The store is appended
exactly when a barcode was decoded and the lookup produced a dict
without an `error` key. -/
def scan_barcode (req : ScanRequest) (net : String → HttpOutcome)
    (writeFails : Bool) (file : FileContent) (now : String) : ScanOutcome :=
  match req with
  | .noJson => ⟨.error "No JSON data received", file, 0⟩
  | .noImageKey => ⟨.error "No image data in request", file, 0⟩
  | .badPayload msg => ⟨.error msg, file, 0⟩
  | .image barcodes =>
    match barcodes with
    | [] => ⟨.no_barcode "No barcode detected", file, 0⟩
    | b :: _ =>
      match get_nutrition_info (net b.data) with
      | .ok r =>
        ⟨.success b.data b.symType (.ok r),
         save_scanned_food writeFails file (recordToDict r) now, 1⟩
      | .error m => ⟨.success b.data b.symType (.error m), file, 0⟩

/-- Spec-side description of a scan succeeding end to end: a decodable
image, at least one barcode, and a lookup result without an `error`
field. -/
def scanSucceeds (req : ScanRequest) (net : String → HttpOutcome) : Bool :=
  match req with
  | .image (b :: _) =>
    match get_nutrition_info (net b.data) with
    | .ok _ => true
    | .error _ => false
  | _ => false

/-! ## Daily totals aggregator (`calculate_daily_totals` in
`streamlit_app.py`) -/

/-- The running `totals` dict of `calculate_daily_totals`. -/
structure Totals where
  calories : ℚ
  protein : ℚ
  carbs : ℚ
  fat : ℚ
  fiber : ℚ
  sugar : ℚ
  deriving DecidableEq

/-- The initial all-zero totals. -/
def zeroTotals : Totals := ⟨0, 0, 0, 0, 0, 0⟩

/-- A food entry as `calculate_daily_totals` accesses it: an arbitrary
dict in which each nutrient key may be absent, `null`, or numeric. -/
structure FoodDict where
  calories : Option JNum := none
  protein : Option JNum := none
  carbs : Option JNum := none
  fat : Option JNum := none
  fiber : Option JNum := none
  sugar : Option JNum := none
  deriving DecidableEq

/-- One step of the inner loop `if nutrient in food:
totals[nutrient] += food.get(nutrient, 0)`: an absent key leaves the
accumulator unchanged; a key present with `null` raises `TypeError`
(`none`); a numeric key is added. -/
def addField (acc : ℚ) (slot : Option JNum) : Option ℚ :=
  match slot with
  | none => some acc
  | some none => none
  | some (some q) => some (acc + q)

/-- The inner loop of `calculate_daily_totals` over one food dict, in
the dict-key order calories, protein, carbs, fat, fiber, sugar; `none`
when any present-but-`null` field raises. -/
def addFood (acc : Totals) (f : FoodDict) : Option Totals := do
  let c ← addField acc.calories f.calories
  let p ← addField acc.protein f.protein
  let cb ← addField acc.carbs f.carbs
  let ft ← addField acc.fat f.fat
  let fb ← addField acc.fiber f.fiber
  let s ← addField acc.sugar f.sugar
  pure ⟨c, p, cb, ft, fb, s⟩

/-- The outer loop of `calculate_daily_totals`: an entry without a
`calories` key is skipped entirely (`continue`); otherwise the inner
loop runs and any raise propagates. -/
def aggLoop (acc : Totals) : List FoodDict → Option Totals
  | [] => some acc
  | f :: rest =>
    if f.calories.isNone then
      aggLoop acc rest
    else
      match addFood acc f with
      | none => none
      | some acc2 => aggLoop acc2 rest

/-- `calculate_daily_totals` from `streamlit_app.py`: `none` models the
function raising a `TypeError` (adding a `null` field). -/
def calculate_daily_totals (foods : List FoodDict) : Option Totals :=
  aggLoop zeroTotals foods

/-! ## Spec-side definitions

These follow the specification's words, to be compared with the
source-derived definitions above. -/

/-- Spec-side resolution "first non-null wins" over the fallback order
[per-serving, per-container, per-100g]. -/
def firstNonNull (a b c : Option ℚ) : Option ℚ :=
  match a with
  | some q => some q
  | none =>
    match b with
    | some q => some q
    | none => c

/-- The resolution the source's `or`-chain actually implements: first
truthy (non-null and non-zero) value wins; when no tier is truthy, the
per-100g tier's value is returned as-is. -/
def resolveTruthy (a b c : Option ℚ) : Option ℚ :=
  if truthy a then a else if truthy b then b else c

/-- Spec-side collapse of a food-dict slot to a number: a missing or
`null` field counts as `0`. -/
def nutrientOrZero : Option JNum → ℚ
  | some (some q) => q
  | _ => 0

/-- The claim's elementwise view of one entry: every field collapsed
with `nutrientOrZero`. -/
def specEntryTotals (f : FoodDict) : Totals :=
  ⟨nutrientOrZero f.calories, nutrientOrZero f.protein, nutrientOrZero f.carbs,
   nutrientOrZero f.fat, nutrientOrZero f.fiber, nutrientOrZero f.sugar⟩

/-- Elementwise sum of two totals. -/
def addTotals (t u : Totals) : Totals :=
  ⟨t.calories + u.calories, t.protein + u.protein, t.carbs + u.carbs,
   t.fat + u.fat, t.fiber + u.fiber, t.sugar + u.sugar⟩

/-- The claim's aggregate: elementwise sum of every entry's fields,
missing or `null` fields as `0`. -/
def specTotals (foods : List FoodDict) : Totals :=
  foods.foldl (fun t f => addTotals t (specEntryTotals f)) zeroTotals

/-- Does a slot hold an explicit JSON `null`? -/
def isNull : Option JNum → Bool
  | some none => true
  | _ => false

/-- No field of the entry is an explicit `null` (so the inner summation
loop cannot raise on it). -/
def noNullFields (f : FoodDict) : Prop :=
  isNull f.calories = false ∧ isNull f.protein = false ∧ isNull f.carbs = false ∧
  isNull f.fat = false ∧ isNull f.fiber = false ∧ isNull f.sugar = false

instance (f : FoodDict) : Decidable (noNullFields f) := by
  unfold noNullFields
  infer_instance

/-- What one entry actually contributes in the source: nothing at all
when its `calories` key is absent, its collapsed fields otherwise. -/
def entryContribution (f : FoodDict) : Totals :=
  if f.calories.isNone then zeroTotals else specEntryTotals f

/-- The aggregate the source actually computes on non-raising inputs. -/
def amendedTotals (foods : List FoodDict) : Totals :=
  foods.foldl (fun t f => addTotals t (entryContribution f)) zeroTotals

/-- A store state as the specification knows it: absent backing file or
an ordered sequence of entries. -/
def storeFile : Option (List FoodEntry) → FileContent
  | none => .absent
  | some foods => .data foods

/-- A single writer performing the given appends in order (each with its
dict and write timestamp), with the file system healthy. -/
def appendAll (file : FileContent) (ds : List (NutritionDict × String)) : FileContent :=
  ds.foldl (fun f dn => save_scanned_food false f dn.1 dn.2) file

/-- Atomic replacement from a reader's point of view: every file state
observable during the append is the prior state or the final state. -/
def atomicAppend (file : FileContent) (d : NutritionDict) (now : String) : Prop :=
  ∀ s ∈ appendObservableStates file d now,
    s = file ∨ s = save_scanned_food false file d now

/-! ## Helper lemmas -/

/-- `strLower` evaluates on the concrete gender strings. -/
theorem strLower_male : strLower "male" = "male" := by decide

/-- The source's `serving or base or per100g` chain is exactly
truthiness-based resolution. -/
theorem pyOr_pyOr (a b c : Option ℚ) :
    pyOr (pyOr a b) c = resolveTruthy a b c := by
  rcases h : truthy a <;> simp [pyOr, resolveTruthy, h]

/-! ## Claim C1 — goal calculation for the 25-year-old male profile -/

/-- C1, as stated, is false: for a 25-year-old male, 70 kg, 175 cm, the
code's BMR is not 1773.75 (the spec's arithmetic slip: the Mifflin-St
Jeor formula `10*70+6.25*175-5*25+5` evaluates to 1673.75), and the
sedentary TDEE is not 2128.5. -/
theorem C1_counterexample :
    calculate_bmr 70 175 25 "male" ≠ 177375/100 ∧
    calculate_tdee (calculate_bmr 70 175 25 "male")
      "Sedentary (little or no exercise)" ≠ 21285/10 := by
  constructor
  · simp [calculate_bmr, strLower_male]
    norm_num
  · simp [calculate_bmr, calculate_tdee, activity_multipliers, strLower_male]
    norm_num

/-- C1 (amended): for a 25-year-old male profile with weight 70 kg and
height 175 cm, the BMR is `10*70+6.25*175-5*25+5 = 1673.75` and the
sedentary TDEE is `1673.75*1.2 = 2008.5`. -/
theorem C1_goal_values :
    calculate_bmr 70 175 25 "male" = 167375/100 ∧
    calculate_tdee (calculate_bmr 70 175 25 "male")
      "Sedentary (little or no exercise)" = 20085/10 := by
  constructor
  · simp [calculate_bmr, strLower_male]
    norm_num
  · simp [calculate_bmr, calculate_tdee, activity_multipliers, strLower_male]
    norm_num

/-! ## Claim C10 — unknown activity levels fall back to sedentary -/

/-- C10: for every BMR and every activity-level string outside the fixed
five-entry table, `calculate_tdee` silently falls back to the sedentary
multiplier and returns `bmr * 1.2`. -/
theorem C10_unknown_activity_sedentary (bmr : ℚ) (level : String)
    (h : level ∉ ["Sedentary (little or no exercise)",
      "Lightly active (light exercise/sports 1-3 days/week)",
      "Moderately active (moderate exercise/sports 3-5 days/week)",
      "Very active (hard exercise/sports 6-7 days a week)",
      "Extra active (very hard exercise/sports & physical job)"]) :
    calculate_tdee bmr level = bmr * (12/10) := by
  simp only [List.mem_cons, List.not_mem_nil, or_false, not_or] at h
  obtain ⟨h1, h2, h3, h4, h5⟩ := h
  simp [calculate_tdee, activity_multipliers, h1, h2, h3, h4, h5]

/-- C10 witness at the unknown level `"unknown"` and BMR 1000. -/
theorem C10_witness : calculate_tdee 1000 "unknown" = 1200 := by
  rw [C10_unknown_activity_sedentary 1000 "unknown" (by decide)]
  norm_num

/-! ## Claim C7 — error taxonomy of the nutrition lookup -/

/-- C7: the lookup returns the fetch-failure error on a non-200 status,
the not-found error when the product-found flag is false or absent,
converts any transport/parse exception into a request-failed error
carrying the message, and is total (always an `ok` record or an `error`
message — no unhandled fault). -/
theorem C7_lookup_error_taxonomy (msg : String) (status : Nat) (body : OFFBody) :
    get_nutrition_info (.exn msg) = .error ("API request failed: " ++ msg) ∧
    (status ≠ 200 →
      get_nutrition_info (.resp status body) = .error "Failed to fetch product data") ∧
    (body.status ≠ some 1 →
      get_nutrition_info (.resp 200 body) = .error "Product not found in database") ∧
    (∀ o : HttpOutcome,
      (∃ r, get_nutrition_info o = .ok r) ∨ (∃ m, get_nutrition_info o = .error m)) := by
  refine ⟨rfl, ?_, ?_, ?_⟩
  · intro h
    simp [get_nutrition_info, h]
  · intro h
    simp [get_nutrition_info, h]
  · intro o
    rcases h : get_nutrition_info o with r | m
    · exact .inl ⟨r, rfl⟩
    · exact .inr ⟨m, rfl⟩

/-- C7 witness: a timeout exception, an HTTP 500 and an empty body at
status 200 each map to their error message. -/
theorem C7_witness :
    get_nutrition_info (.exn "timeout") = .error "API request failed: timeout" ∧
    get_nutrition_info (.resp 500 {}) = .error "Failed to fetch product data" ∧
    get_nutrition_info (.resp 200 {}) = .error "Product not found in database" := by
  have h := C7_lookup_error_taxonomy "timeout" 500 {}
  exact ⟨h.1, h.2.1 (by decide), h.2.2.1 (by decide)⟩

/-! ## Claim C3 — fallback resolution in the nutrition lookup -/

/-- The resolved `protein` field of a lookup outcome, when the lookup
succeeded. -/
def lookupProteinOf (o : HttpOutcome) : Option JNum :=
  match get_nutrition_info o with
  | .ok r => some r.protein
  | .error _ => none

/-- A nutrient map whose per-serving protein is the number `0` and whose
per-container protein is `9`. -/
def zeroServingNutriments : Nutriments :=
  { proteins_serving := some 0, proteins := some 9 }

/-- C3, as stated, is false: the source resolves with Python `or`, which
skips a present value of `0` (falsy), not only `null`.  On a product with
`proteins_serving=0, proteins=9` the first non-null value is `0`, but the
code resolves `protein` to `9`. -/
theorem C3_counterexample :
    lookupProteinOf
        (.resp 200 ⟨some 1, some { nutriments := zeroServingNutriments }⟩) =
      some (some 9) ∧
    firstNonNull (some 0) (some 9) none = some 0 ∧
    lookupProteinOf
        (.resp 200 ⟨some 1, some { nutriments := zeroServingNutriments }⟩) ≠
      some (firstNonNull (some 0) (some 9) none) := by
  refine ⟨?_, rfl, ?_⟩ <;> decide

/-- C3 (amended): each resolved field equals the first truthy (non-null
and non-zero) value in the order [per-serving, per-container, per-100g];
when no tier is truthy the per-100g tier's value is returned as-is, so a
field absent at every tier is still left absent in the output. -/
theorem C3_fallback_resolution (body : OFFBody) (p : Product)
    (h1 : body.status = some 1) (h2 : body.product = some p) :
    (∃ r, get_nutrition_info (.resp 200 body) = .ok r ∧
      r.calories = resolveTruthy p.nutriments.energy_kcal_serving
        p.nutriments.energy_kcal p.nutriments.energy_kcal_100g ∧
      r.protein = resolveTruthy p.nutriments.proteins_serving
        p.nutriments.proteins p.nutriments.proteins_100g ∧
      r.fat = resolveTruthy p.nutriments.fat_serving
        p.nutriments.fat p.nutriments.fat_100g ∧
      r.carbs = resolveTruthy p.nutriments.carbohydrates_serving
        p.nutriments.carbohydrates p.nutriments.carbohydrates_100g ∧
      r.fiber = resolveTruthy p.nutriments.fiber_serving
        p.nutriments.fiber p.nutriments.fiber_100g ∧
      r.sugar = resolveTruthy p.nutriments.sugars_serving
        p.nutriments.sugars p.nutriments.sugars_100g ∧
      r.salt = resolveTruthy p.nutriments.salt_serving
        p.nutriments.salt p.nutriments.salt_100g) ∧
    (∀ c : Option ℚ, resolveTruthy none none c = c) := by
  obtain ⟨bs, bp⟩ := body
  simp only [OFFBody.status] at h1
  simp only [OFFBody.product] at h2
  subst h1
  subst h2
  constructor
  · refine ⟨_, rfl, ?_, ?_, ?_, ?_, ?_, ?_, ?_⟩ <;> exact pyOr_pyOr _ _ _
  · intro c
    simp [resolveTruthy, truthy]

/-- The spec's first fallback example: per-serving 5, per-container 9,
per-100g 12. -/
def exampleNutriments1 : Nutriments :=
  { proteins_serving := some 5, proteins := some 9, proteins_100g := some 12 }

def exampleProduct1 : Product :=
  { nutriments := exampleNutriments1 }

/-- The spec's second fallback example: only per-100g 12. -/
def exampleProduct2 : Product :=
  { nutriments := { proteins_100g := some 12 } }

/-- C3 witness: the spec's two fallback examples hold under the amended
resolution — `proteins_serving=5, proteins=9, proteins_100g=12` resolves
`protein` to `5`, and only `proteins_100g=12` resolves it to `12`. -/
theorem C3_witness :
    (∃ r, get_nutrition_info (.resp 200 ⟨some 1, some exampleProduct1⟩) = .ok r ∧
      r.protein = some 5) ∧
    (∃ r, get_nutrition_info (.resp 200 ⟨some 1, some exampleProduct2⟩) = .ok r ∧
      r.protein = some 12) := by
  constructor
  · obtain ⟨⟨r, hr, _, hp, _⟩, _⟩ :=
      C3_fallback_resolution ⟨some 1, some exampleProduct1⟩ exampleProduct1 rfl rfl
    exact ⟨r, hr, by rw [hp]; decide⟩
  · obtain ⟨⟨r, hr, _, hp, _⟩, _⟩ :=
      C3_fallback_resolution ⟨some 1, some exampleProduct2⟩ exampleProduct2 rfl rfl
    exact ⟨r, hr, by rw [hp]; decide⟩

/-! ## Claim C4 — exactly one append per successful scan -/

/-- C4: the scan handler invokes the store append exactly once when the
scan succeeds end to end (decodable image, at least one decoded barcode,
lookup record without an `error` field) and zero times in every other
outcome; and when it does not succeed the store file is untouched. -/
theorem C4_single_append (req : ScanRequest) (net : String → HttpOutcome)
    (writeFails : Bool) (file : FileContent) (now : String) :
    (scan_barcode req net writeFails file now).saveCalls =
      (if scanSucceeds req net then 1 else 0) ∧
    (scanSucceeds req net = false →
      (scan_barcode req net writeFails file now).file = file) := by
  cases req with
  | noJson => simp [scan_barcode, scanSucceeds]
  | noImageKey => simp [scan_barcode, scanSucceeds]
  | badPayload m => simp [scan_barcode, scanSucceeds]
  | image bs =>
    cases bs with
    | nil => simp [scan_barcode, scanSucceeds]
    | cons b rest =>
      rcases h : get_nutrition_info (net b.data) with r | m <;>
        simp [scan_barcode, scanSucceeds, h]

/-- C4 witness: a no-barcode scan performs zero appends and leaves the
file untouched. -/
theorem C4_witness :
    (scan_barcode (.image []) (fun _ => .exn "down") false .absent "t").saveCalls = 0 ∧
    (scan_barcode (.image []) (fun _ => .exn "down") false .absent "t").file = .absent := by
  have h := C4_single_append (.image []) (fun _ => .exn "down") false .absent "t"
  exact ⟨by rw [h.1]; rfl, h.2 rfl⟩

/-! ## Claim C5 — responses on lookup failure and on append failure -/

/-- C5: when a barcode is decoded but the lookup fails, the handler still
responds with status `success`, the nutrition payload carries the error,
and no entry is persisted; when the lookup succeeds but the store write
itself raises, the failure is swallowed (the file is unchanged) and the
response still reports `success`. -/
theorem C5_failure_swallowing (net : String → HttpOutcome) (b : Barcode)
    (bs : List Barcode) (writeFails : Bool) (file : FileContent) (now : String) :
    (∀ m, get_nutrition_info (net b.data) = .error m →
      scan_barcode (.image (b :: bs)) net writeFails file now =
        ⟨.success b.data b.symType (.error m), file, 0⟩) ∧
    (∀ r, get_nutrition_info (net b.data) = .ok r →
      (scan_barcode (.image (b :: bs)) net true file now).response =
        .success b.data b.symType (.ok r) ∧
      (scan_barcode (.image (b :: bs)) net true file now).file = file) := by
  constructor
  · intro m h
    simp [scan_barcode, h]
  · intro r h
    cases file <;> simp [scan_barcode, h, save_scanned_food]

/-- C5 witness: with the network down, the response is `success` with
the request-failed payload and the absent file stays absent; with the
lookup succeeding on an empty product but the write raising, the
response is still `success` and the file is unchanged. -/
theorem C5_witness :
    scan_barcode (.image [⟨"0123", "EAN13"⟩]) (fun _ => .exn "down") false .absent "t" =
      ⟨.success "0123" "EAN13" (.error "API request failed: down"), .absent, 0⟩ ∧
    (scan_barcode (.image [⟨"0123", "EAN13"⟩])
        (fun _ => .resp 200 ⟨some 1, some {}⟩) true (.data []) "t").response =
      .success "0123" "EAN13"
        (get_nutrition_info (.resp 200 ⟨some 1, some {}⟩)) ∧
    (scan_barcode (.image [⟨"0123", "EAN13"⟩])
        (fun _ => .resp 200 ⟨some 1, some {}⟩) true (.data []) "t").file = .data [] := by
  refine ⟨?_, ?_, ?_⟩
  · exact (C5_failure_swallowing (fun _ => .exn "down") ⟨"0123", "EAN13"⟩ [] false .absent "t").1
      "API request failed: down" rfl
  · exact ((C5_failure_swallowing (fun _ => .resp 200 ⟨some 1, some {}⟩) ⟨"0123", "EAN13"⟩ [] true
      (.data []) "t").2 _ rfl).1
  · exact ((C5_failure_swallowing (fun _ => .resp 200 ⟨some 1, some {}⟩) ⟨"0123", "EAN13"⟩ [] true
      (.data []) "t").2 _ rfl).2

/-! ## Claim C2 — daily totals aggregation -/

/-- An entry holding only a protein value, with no `calories` key. -/
def orphanProteinFood : FoodDict := { protein := some (some 5) }

/-- C2, as stated, is false: the aggregator skips an entire entry whose
`calories` key is absent, so an entry holding only `protein = 5` yields
all-zero totals while the claimed elementwise sum has `protein = 5`. -/
theorem C2_counterexample :
    calculate_daily_totals [orphanProteinFood] = some zeroTotals ∧
    (specTotals [orphanProteinFood]).protein = 5 ∧
    calculate_daily_totals [orphanProteinFood] ≠ some (specTotals [orphanProteinFood]) := by
  have h1 : calculate_daily_totals [orphanProteinFood] = some zeroTotals := by decide
  have h2 : (specTotals [orphanProteinFood]).protein = 5 := by
    simp [specTotals, specEntryTotals, addTotals, zeroTotals, nutrientOrZero,
      orphanProteinFood]
  refine ⟨h1, h2, ?_⟩
  rw [h1]
  intro hEq
  have : zeroTotals = specTotals [orphanProteinFood] := Option.some.inj hEq
  have h0 : (5 : ℚ) = 0 := by rw [← h2, ← this]; rfl
  norm_num at h0

/-- Adding the zero totals elementwise is the identity. -/
theorem addTotals_zero (t : Totals) : addTotals t zeroTotals = t := by
  simp [addTotals, zeroTotals]

/-- Under a non-`null` slot, one inner-loop step adds the collapsed
value. -/
theorem addField_eq (a : ℚ) (slot : Option JNum) (h : isNull slot = false) :
    addField a slot = some (a + nutrientOrZero slot) := by
  match slot with
  | none => simp [addField, nutrientOrZero]
  | some none => simp [isNull] at h
  | some (some q) => simp [addField, nutrientOrZero]

/-- On an entry with no `null` field, the inner loop returns the
elementwise sum with the entry's collapsed fields. -/
theorem addFood_eq (acc : Totals) (f : FoodDict) (h : noNullFields f) :
    addFood acc f = some (addTotals acc (specEntryTotals f)) := by
  obtain ⟨h1, h2, h3, h4, h5, h6⟩ := h
  simp [addFood, addField_eq _ _ h1, addField_eq _ _ h2, addField_eq _ _ h3,
    addField_eq _ _ h4, addField_eq _ _ h5, addField_eq _ _ h6,
    addTotals, specEntryTotals]

/-- The aggregation loop, from any accumulator, folds each entry's
actual contribution when no processed entry raises. -/
theorem aggLoop_eq (foods : List FoodDict) :
    ∀ acc : Totals,
      (∀ f ∈ foods, f.calories.isNone = true ∨ noNullFields f) →
      aggLoop acc foods =
        some (foods.foldl (fun t f => addTotals t (entryContribution f)) acc) := by
  induction foods with
  | nil => intro acc _; rfl
  | cons f rest ih =>
    intro acc h
    have hf := h f (List.mem_cons_self f rest)
    have hrest : ∀ g ∈ rest, g.calories.isNone = true ∨ noNullFields g :=
      fun g hg => h g (List.mem_cons_of_mem f hg)
    by_cases hc : f.calories.isNone
    · rw [aggLoop, if_pos hc, ih acc hrest, List.foldl_cons, entryContribution,
        if_pos hc, addTotals_zero]
    · have hnn : noNullFields f := hf.resolve_left hc
      rw [aggLoop, if_neg hc, addFood_eq acc f hnn]
      show aggLoop (addTotals acc (specEntryTotals f)) rest = _
      rw [ih _ hrest, List.foldl_cons]
      simp only [entryContribution, if_neg hc]

/-- C2 (amended): the aggregator skips entirely any entry whose
`calories` key is absent; each remaining entry contributes every field
elementwise with an absent key as 0, provided no processed entry holds
an explicit `null` field (a present `null` raises a `TypeError` instead
of counting as 0). -/
theorem C2_totals_amended (foods : List FoodDict)
    (h : ∀ f ∈ foods, f.calories.isNone = true ∨ noNullFields f) :
    calculate_daily_totals foods = some (amendedTotals foods) :=
  aggLoop_eq foods zeroTotals h

/-- C2 witness: one full entry plus one entry without a `calories` key:
the totals are the full entry's values, the orphan entry being skipped. -/
theorem C2_witness :
    calculate_daily_totals
        [{ calories := some (some 100), protein := some (some 10) }, orphanProteinFood] =
      some (amendedTotals
        [{ calories := some (some 100), protein := some (some 10) }, orphanProteinFood]) :=
  C2_totals_amended _ (by decide)

/-! ## Claim C6 — append then loadAll round-trip -/

/-- A healthy single-writer append sequence starting from a populated
file appends exactly the built entries in order. -/
theorem appendAll_data (ds : List (NutritionDict × String)) :
    ∀ foods : List FoodEntry,
      appendAll (.data foods) ds =
        .data (foods ++ ds.map (fun dn => mkFoodEntry dn.1 dn.2)) := by
  induction ds with
  | nil => intro foods; simp [appendAll]
  | cons d rest ih =>
    intro foods
    have h1 : appendAll (.data foods) (d :: rest) =
        appendAll (.data (foods ++ [mkFoodEntry d.1 d.2])) rest := by
      simp [appendAll, save_scanned_food]
    rw [h1, ih]
    simp

/-- C6: starting from any store state (an absent backing file is an
empty store, not an error), a single writer appending entries E1..En in
order leaves `loadAll` returning exactly the prior contents followed by
E1..En. -/
theorem C6_append_then_loadAll (start : Option (List FoodEntry))
    (ds : List (NutritionDict × String)) :
    load_scanned_foods (appendAll (storeFile start) ds) =
      load_scanned_foods (storeFile start) ++
        ds.map (fun dn => mkFoodEntry dn.1 dn.2) := by
  cases start with
  | some foods => rw [storeFile, appendAll_data ds foods]; rfl
  | none =>
    cases ds with
    | nil => rfl
    | cons d rest =>
      have h1 : appendAll (storeFile none) (d :: rest) =
          appendAll (.data [mkFoodEntry d.1 d.2]) rest := by
        simp [appendAll, storeFile, save_scanned_food]
      rw [h1, appendAll_data rest [mkFoodEntry d.1 d.2]]
      rfl

/-! ## Claim C8 — write-time defaults in the persisted entry -/

/-- A nutrition dict whose `calories` key is present but `null` (exactly
what the lookup client produces when a product has no calorie tier). -/
def nullCaloriesDict : NutritionDict :=
  { product_name := some "X", calories := some none }

/-- C8, as stated, is false: a numeric field present in the record with
a `null` value is persisted as `null`, not a number — and such records
are reachable, since the lookup client emits every key (possibly null).
The persisted entry for `nullCaloriesDict` has no numeric `calories`. -/
theorem C8_counterexample :
    (mkFoodEntry nullCaloriesDict "t").calories = none ∧
    (∀ q : ℚ, (mkFoodEntry nullCaloriesDict "t").calories ≠ some q) ∧
    (∃ r, get_nutrition_info (.resp 200 ⟨some 1, some {}⟩) = .ok r ∧
      (recordToDict r).calories = some none) := by
  refine ⟨rfl, ?_, ⟨_, rfl, rfl⟩⟩
  intro q h
  simp [mkFoodEntry, nullCaloriesDict, dictGetNum] at h

/-- C8 (amended): at write time each numeric field whose key is missing
from the record defaults to 0, but a field present in the record —
including present with `null` — is persisted with its value unchanged,
so a persisted entry need not carry a numeric value for every field. -/
theorem C8_write_time_defaults (d : NutritionDict) (now : String) :
    ((d.calories = none → (mkFoodEntry d now).calories = some 0) ∧
      (∀ j, d.calories = some j → (mkFoodEntry d now).calories = j)) ∧
    ((d.protein = none → (mkFoodEntry d now).protein = some 0) ∧
      (∀ j, d.protein = some j → (mkFoodEntry d now).protein = j)) ∧
    ((d.carbs = none → (mkFoodEntry d now).carbs = some 0) ∧
      (∀ j, d.carbs = some j → (mkFoodEntry d now).carbs = j)) ∧
    ((d.fat = none → (mkFoodEntry d now).fat = some 0) ∧
      (∀ j, d.fat = some j → (mkFoodEntry d now).fat = j)) ∧
    ((d.fiber = none → (mkFoodEntry d now).fiber = some 0) ∧
      (∀ j, d.fiber = some j → (mkFoodEntry d now).fiber = j)) ∧
    ((d.sugar = none → (mkFoodEntry d now).sugar = some 0) ∧
      (∀ j, d.sugar = some j → (mkFoodEntry d now).sugar = j)) := by
  refine ⟨⟨?_, ?_⟩, ⟨?_, ?_⟩, ⟨?_, ?_⟩, ⟨?_, ?_⟩, ⟨?_, ?_⟩, ⟨?_, ?_⟩⟩ <;>
    intros <;> simp [mkFoodEntry, dictGetNum, *]

/-- C8 witness: a dict with only a numeric protein key persists
`calories = 0` (missing key) and `protein = 7` (present key). -/
theorem C8_witness :
    (mkFoodEntry { protein := some (some 7) } "t").calories = some 0 ∧
    (mkFoodEntry { protein := some (some 7) } "t").protein = some 7 := by
  have h := C8_write_time_defaults { protein := some (some 7) } "t"
  exact ⟨h.1.1 rfl, h.2.1.2 (some 7) rfl⟩

/-! ## Claim C9 — atomicity of the file rewrite -/

/-- A concrete pre-existing persisted entry. -/
def sampleEntry : FoodEntry :=
  ⟨"Oats", "Acme", some 389, some 17, some 66, some 7, some 11, some 1, "t0"⟩

/-- C9, as stated, is false: the append rewrites the file with
truncate-then-write, so starting from a file holding one entry, a
concurrent reader can observe the truncated (unparseable) file, which is
neither the prior nor the final state. -/
theorem C9_counterexample :
    ¬ atomicAppend (.data [sampleEntry]) {} "t1" := by
  intro h
  have hmem : FileContent.corrupt ∈
      appendObservableStates (.data [sampleEntry]) {} "t1" := by
    simp [appendObservableStates]
  rcases h .corrupt hmem with h1 | h1 <;> simp [save_scanned_food] at h1

/-- C9 (amended): the backing file is not replaced atomically — during
every append to a populated store a concurrent reader can observe a
truncated, unparseable file state, distinct from both the prior and the
final state, which `loadAll` reports as an empty store; the write ends
in the final state carrying the prior entries plus the new one. -/
theorem C9_truncated_state_observable (foods : List FoodEntry)
    (d : NutritionDict) (now : String) :
    (∃ s ∈ appendObservableStates (.data foods) d now,
      load_scanned_foods s = [] ∧ s ≠ .data foods ∧
      s ≠ save_scanned_food false (.data foods) d now) ∧
    (appendObservableStates (.data foods) d now).getLast? =
      some (.data (foods ++ [mkFoodEntry d now])) := by
  refine ⟨⟨.corrupt, ?_, rfl, ?_, ?_⟩, ?_⟩
  · simp [appendObservableStates]
  · simp
  · simp [save_scanned_food]
  · simp [appendObservableStates]
